import Mathlib

/-!
Shallow embedding of the EasySalon booking workflow
(`src/booking_workflow.py`, plus the completion check and session
removal of `src/chatbot.py`).

Python strings are modelled as Lean `String`; `None`-able fields as
`Option`; Python truthiness of an optional string (`None` and `""` are
falsy) as `strFalsy`.  Substring tests (`a in b`) are modelled by
`strContains`, `str.lower()` by `pyLower` (all relevant text is ASCII),
`str.strip()` by `pyTrim`, `str.title()` by `pyTitle`, and `int(...)`
by `pyInt?` (failure models the raised `ValueError`).  The external
collaborators (dateparser, the HTTP booking gateway) enter as function
parameters.
-/

namespace EasySalon

/-- Test that `n` is a leading segment of `h` (Boolean). -/
def isLeadOf : List Char → List Char → Bool
  | [], _ => true
  | _ :: _, [] => false
  | a :: as, b :: bs => a == b && isLeadOf as bs

/-- Test that `n` occurs as a contiguous sublist of `h`
(Boolean); the model of Python `n in h` for strings. -/
def occursIn (needle : List Char) : List Char → Bool
  | [] => needle.isEmpty
  | c :: rest => isLeadOf needle (c :: rest) || occursIn needle rest

/-- Python `needle in hay` for strings. -/
def strContains (hay needle : String) : Bool :=
  occursIn needle.data hay.data

/-- ASCII lower-casing of one character. -/
def lowerChar (c : Char) : Char :=
  if 'A' ≤ c ∧ c ≤ 'Z' then Char.ofNat (c.toNat + 32) else c

/-- ASCII upper-casing of one character. -/
def upperChar (c : Char) : Char :=
  if 'a' ≤ c ∧ c ≤ 'z' then Char.ofNat (c.toNat - 32) else c

/-- ASCII letter test. -/
def isAlphaChar (c : Char) : Bool :=
  ('a' ≤ c && c ≤ 'z') || ('A' ≤ c && c ≤ 'Z')

/-- Whitespace characters stripped by Python `str.strip()`. -/
def isSpaceChar (c : Char) : Bool :=
  c == ' ' || c == '\t' || c == '\n' || c == '\r'

/-- Python `s.lower()` (ASCII fragment). -/
def pyLower (s : String) : String := String.mk (s.data.map lowerChar)

/-- Python `s.strip()`. -/
def pyTrim (s : String) : String :=
  String.mk (((s.data.dropWhile isSpaceChar).reverse.dropWhile isSpaceChar).reverse)

/-- Helper for `pyTitle`: the Boolean records whether the previous
character was a letter. -/
def titleChars : Bool → List Char → List Char
  | _, [] => []
  | prevAlpha, c :: cs =>
    (if isAlphaChar c then (if prevAlpha then lowerChar c else upperChar c) else c)
      :: titleChars (isAlphaChar c) cs

/-- Python `s.title()` (ASCII fragment). -/
def pyTitle (s : String) : String := String.mk (titleChars false s.data)

/-- Python `s.replace("_", " ")`. -/
def underscoreToSpace (s : String) : String :=
  String.mk (s.data.map (fun c => if c == '_' then ' ' else c))

/-- Value of one decimal digit. -/
def digitVal (c : Char) : Option Nat :=
  if '0' ≤ c ∧ c ≤ '9' then some (c.toNat - 48) else none

/-- Accumulate a decimal number; fails on any non-digit. -/
def digitsAcc : List Char → Nat → Option Nat
  | [], acc => some acc
  | c :: cs, acc =>
    match digitVal c with
    | some d => digitsAcc cs (acc * 10 + d)
    | none => none

/-- A non-empty all-digit string as a number. -/
def digitsVal : List Char → Option Nat
  | [] => none
  | l => digitsAcc l 0

/-- Python `int(s)` for decimal strings: optional sign, surrounding
whitespace allowed, anything else raises (modelled as `none`). -/
def pyInt? (s : String) : Option Int :=
  match ((s.data.dropWhile isSpaceChar).reverse.dropWhile isSpaceChar).reverse with
  | '-' :: rest => (digitsVal rest).map (fun n => -(n : Int))
  | '+' :: rest => (digitsVal rest).map (fun n => (n : Int))
  | l => (digitsVal l).map (fun n => (n : Int))

/-- Python truthiness of an optional string: `None` and `""` are falsy. -/
def strFalsy : Option String → Bool
  | none => true
  | some s => s == ""

/-- Python `str(x)` / f-string rendering of an optional string
(`str(None) = "None"`). -/
def optStrPy : Option String → String
  | none => "None"
  | some s => s

/-- f-string rendering of an optional number. -/
def optNatPy : Option Nat → String
  | none => "None"
  | some n => toString n

/-- An apostrophe, written via its code point. -/
def apos : String := String.singleton (Char.ofNat 39)

/-- A catalog option as shown to the user: the `id`/`name` part of the
branch / service dicts consumed by `_parse_selection` and the
summary/name lookups. -/
structure SelOption where
  id : Nat
  name : String
deriving Repr, DecidableEq

/-- One entry of `conversation_history` (timestamps omitted: they are
wall-clock metadata never read by the logic under verification). -/
structure Msg where
  role : String
  content : String
deriving Repr, DecidableEq

/-- The `BookingState` TypedDict of `booking_workflow.py`. -/
structure BookingState where
  customer_mobile : Option String
  customer_name : Option String
  total_customer : Option Nat
  branch_id : Option String
  service_id : Option String
  booking_date : Option String
  booking_time : Option String
  branch_options : List SelOption
  service_options : List SelOption
  conversation_history : List Msg
  current_step : String
  missing_fields : List String
  is_complete : Bool
  error_message : Option String
  session_id : Option String
  edit_mode : Bool
  last_user_intent : Option String
  booking_summary_shown : Bool
deriving Repr, DecidableEq

/-- Model of `add_message`: append to the conversation history. -/
def add_message (s : BookingState) (role content : String) : BookingState :=
  { s with conversation_history := s.conversation_history ++ [⟨role, content⟩] }

/-- Latest message of a given role: the source scans
`reversed(state["conversation_history"])` for the first match. -/
def latestMessage (role : String) (history : List Msg) : Option Msg :=
  history.reverse.find? (fun m => m.role == role)

/-- The required-field list of `get_missing_fields`, in source order. -/
def requiredFields : List String :=
  ["customer_mobile", "customer_name", "branch_id",
   "service_id", "booking_date", "booking_time"]

/-- Model of `state.get(field)` for the six required fields. -/
def getField (s : BookingState) : String → Option String
  | "customer_mobile" => s.customer_mobile
  | "customer_name" => s.customer_name
  | "branch_id" => s.branch_id
  | "service_id" => s.service_id
  | "booking_date" => s.booking_date
  | "booking_time" => s.booking_time
  | _ => none

/-- Model of `get_missing_fields`: the required fields whose value is
falsy. -/
def get_missing_fields (s : BookingState) : List String :=
  requiredFields.filter (fun f => strFalsy (getField s f))

/-- Model of `update_missing_fields`: recompute `missing_fields` and set
`is_complete = (len(missing_fields) == 0)`. -/
def update_missing_fields (s : BookingState) : BookingState :=
  { s with missing_fields := get_missing_fields s,
           is_complete := (get_missing_fields s).length == 0 }

/-- Model of `initialize_booking_state` (fresh session id supplied by
the caller). -/
def initialize_booking_state (session_id : Option String) : BookingState :=
  { customer_mobile := none
    customer_name := none
    total_customer := some 1
    branch_id := none
    service_id := none
    booking_date := none
    booking_time := none
    branch_options := []
    service_options := []
    conversation_history := []
    current_step := "start"
    missing_fields := []
    is_complete := false
    error_message := none
    session_id := session_id
    edit_mode := false
    last_user_intent := none
    booking_summary_shown := false }

/-- Model of `detect_user_intent`: keyword classifier, first match wins. -/
def detect_user_intent (user_message : String) : String :=
  let message_lower := pyTrim (pyLower user_message)
  if ["edit", "change", "modify", "update"].any
      (fun w => strContains message_lower w) then "edit"
  else if ["summary", "status", "show", "review", "details"].any
      (fun w => strContains message_lower w) then "show_summary"
  else if ["start over", "restart", "begin again", "reset"].any
      (fun w => strContains message_lower w) then "start_over"
  else if ["confirm booking", "confirm appointment", "yes confirm",
           "proceed with booking"].any
      (fun w => strContains message_lower w) then "confirm"
  else if ["confirm", "yes", "ok", "proceed", "go ahead"].contains
      message_lower then "confirm"
  else if ["cancel", "stop", "quit", "exit"].any
      (fun w => strContains message_lower w) then "cancel"
  else "provide_info"

/-- The `edit_mappings` dict of `handle_edit_command`
(keyword, field, next step), in insertion order. -/
def edit_mappings : List (String × String × String) :=
  [("name", "customer_name", "collect_customer_info"),
   ("phone", "customer_mobile", "collect_customer_info"),
   ("mobile", "customer_mobile", "collect_customer_info"),
   ("branch", "branch_id", "query_branches"),
   ("location", "branch_id", "query_branches"),
   ("salon", "branch_id", "query_branches"),
   ("service", "service_id", "query_services"),
   ("treatment", "service_id", "query_services"),
   ("date", "booking_date", "collect_customer_info"),
   ("time", "booking_time", "collect_customer_info"),
   ("people", "total_customer", "collect_customer_info"),
   ("customer", "total_customer", "collect_customer_info")]

/-- Model of `handle_edit_command` (its `state` argument is unused in the
source): first keyword contained in the lower-cased message wins;
no match returns `(None, "show_edit_options")`. -/
def handle_edit_command (user_message : String) : Option String × String :=
  let message_lower := pyLower user_message
  match edit_mappings.find? (fun m => strContains message_lower m.1) with
  | some (_, field, next_step) => (some field, next_step)
  | none => (none, "show_edit_options")

/-- Model of `state[field] = None` for the fields reachable from
`edit_mappings`. -/
def clearField (s : BookingState) : String → BookingState
  | "customer_name" => { s with customer_name := none }
  | "customer_mobile" => { s with customer_mobile := none }
  | "branch_id" => { s with branch_id := none }
  | "service_id" => { s with service_id := none }
  | "booking_date" => { s with booking_date := none }
  | "booking_time" => { s with booking_time := none }
  | "total_customer" => { s with total_customer := none }
  | _ => s

/-- The fixed edit-options text of `_handle_edit` (no keyword match). -/
def editOptionsText : String :=
  let q := apos
  "I can help you edit any of the following:\n" ++
  "• Name - say " ++ q ++ "edit name" ++ q ++ "\n" ++
  "• Phone - say " ++ q ++ "edit phone" ++ q ++ "\n" ++
  "• Branch - say " ++ q ++ "edit branch" ++ q ++ "\n" ++
  "• Service - say " ++ q ++ "edit service" ++ q ++ "\n" ++
  "• Date - say " ++ q ++ "edit date" ++ q ++ "\n" ++
  "• Time - say " ++ q ++ "edit time" ++ q ++ "\n\n" ++
  "What would you like to change?"

/-- Model of `BookingWorkflow._handle_edit`. -/
def handle_edit (s : BookingState) : BookingState :=
  let s1 := { s with current_step := "handle_edit" }
  match latestMessage "user" s1.conversation_history with
  | none => s1
  | some m =>
    match handle_edit_command m.content with
    | (some field, next_step) =>
      let s2 := clearField s1 field
      let s3 := if field == "branch_id" then { s2 with branch_options := [] }
                else if field == "service_id" then { s2 with service_options := [] }
                else s2
      let s4 := { s3 with current_step := next_step }
      let fd := pyTitle (underscoreToSpace field)
      let s5 := add_message s4 "assistant"
        ("I" ++ apos ++ "ll help you update your " ++ fd ++ ".")
      update_missing_fields s5
    | (none, _) =>
      let s2 := add_message s1 "assistant" editOptionsText
      { s2 with current_step := "show_summary" }

/-- The ordinal-reference patterns of `_parse_selection` for
position `i`. -/
def ordinalPatterns (i : Nat) : List String :=
  let n := toString i
  [" " ++ n ++ " ", " " ++ n ++ ".", " " ++ n ++ ",",
   "option " ++ n, "choice " ++ n, "number " ++ n,
   "#" ++ n, "(" ++ n ++ ")"]

/-- The enumerated ordinal scan of `_parse_selection`
(`enumerate(options[:5], 1)`): bare-number equality first, then the
pattern list, first matching position wins. -/
def selectByOrdinal (user_msg : String) : Nat → List SelOption → Option SelOption
  | _, [] => none
  | i, o :: rest =>
    if pyTrim user_msg == toString i then some o
    else if (ordinalPatterns i).any (fun p => strContains user_msg p) then some o
    else selectByOrdinal user_msg (i + 1) rest

/-- Model of `BookingWorkflow._parse_selection`. -/
def parse_selection (user_message : String) (options : List SelOption) :
    Option SelOption :=
  let user_msg := pyLower user_message
  match selectByOrdinal user_msg 1 (options.take 5) with
  | some o => some o
  | none => options.find? (fun o => strContains user_msg (pyLower o.name))

/-- Name lookup used by `_confirm_details` (guarded by both the id and
the options list being truthy). -/
def displayName (idv : Option String) (opts : List SelOption) (dflt : String) :
    String :=
  if !(strFalsy idv) && !opts.isEmpty then
    match opts.find? (fun o => toString o.id == optStrPy idv) with
    | some o => o.name
    | none => dflt
  else dflt

/-- Name lookup used by `_create_booking` (guarded only by the options
list being truthy). -/
def displayNameOptsOnly (idv : Option String) (opts : List SelOption)
    (dflt : String) : String :=
  if !opts.isEmpty then
    match opts.find? (fun o => toString o.id == optStrPy idv) with
    | some o => o.name
    | none => dflt
  else dflt

/-- Python `", ".join(...)`-style joining. -/
def joinSep (sep : String) : List String → String
  | [] => ""
  | [x] => x
  | x :: xs => x ++ sep ++ joinSep sep xs

/-- The confirmation prompt rendered by `_confirm_details` (after the
missing-field recomputation). -/
def confirmDetailsText (s : BookingState) : String :=
  let branch_name := displayName s.branch_id s.branch_options "Unknown branch"
  let service_name := displayName s.service_id s.service_options "Unknown service"
  let base :=
    "**Please confirm your booking details:**\n\n" ++
    "• Name: " ++ optStrPy s.customer_name ++ "\n" ++
    "• Phone: " ++ optStrPy s.customer_mobile ++ "\n" ++
    "• Branch: " ++ branch_name ++ " (ID: " ++ optStrPy s.branch_id ++ ")\n" ++
    "• Service: " ++ service_name ++ " (ID: " ++ optStrPy s.service_id ++ ")\n" ++
    "• Date: " ++ optStrPy s.booking_date ++ "\n" ++
    "• Time: " ++ optStrPy s.booking_time ++ "\n" ++
    "• Number of people: " ++ optNatPy s.total_customer ++ "\n\n"
  if s.missing_fields ≠ [] then
    base ++ "⚠️ **The following information is still needed:** " ++
      joinSep ", " s.missing_fields ++ "\n\n" ++
      "Please provide the missing information so I can complete your booking."
  else
    base ++ "If everything looks correct, please type " ++ apos ++ "confirm" ++
      apos ++ " to book your appointment.\n" ++
      "If you want to make changes, please let me know what you" ++ apos ++
      "d like to change."

/-- Model of `BookingWorkflow._confirm_details`. -/
def confirm_details (s : BookingState) : BookingState :=
  let s1 := { s with current_step := "confirm_details" }
  let s2 := update_missing_fields s1
  add_message s2 "assistant" (confirmDetailsText s2)

/-- A JSON scalar as it matters to the success check of
`_create_booking`: Python `x == True` is true for the boolean `True`
and the numbers equal to 1, never for a string. -/
inductive PyVal where
  | vBool : Bool → PyVal
  | vInt : Int → PyVal
  | vStr : String → PyVal
deriving Repr, DecidableEq

/-- Python `v == True`. -/
def pyEqTrue : PyVal → Bool
  | .vBool b => b
  | .vInt n => n == 1
  | .vStr _ => false

/-- f-string rendering of a `PyVal`. -/
def pyValStr : PyVal → String
  | .vBool b => if b then "True" else "False"
  | .vInt n => toString n
  | .vStr s => s

/-- The booking-gateway response dict, restricted to the keys
`_create_booking` reads (`none` = key absent). -/
structure ApiResponse where
  id : Option PyVal
  bookingCode : Option PyVal
  message : Option String
deriving Repr, DecidableEq

/-- The request dict built by `_create_booking`. -/
structure BookingRequest where
  customer_name : Option String
  customer_mobile : Option String
  total_customer : Option Nat
  branch_id : Int
  service_id : Int
  booking_date : Option String
  booking_time : Option String
deriving Repr, DecidableEq

/-- Model of `BookingWorkflow.convert_to_api_date`; `dc` is the external
`dateparser.parse` + `strftime("%Y-%m-%d")` pipeline. -/
def convert_to_api_date (dc : String → Option String) :
    Option String → Option String
  | none => none
  | some d => if d == "" then none else dc d

/-- Model of `BookingWorkflow.convert_to_api_time`; `tc` is the external
`dateparser.parse` + `strftime("%H:%M")` pipeline. -/
def convert_to_api_time (tc : String → Option String) :
    Option String → Option String
  | none => none
  | some t => if t == "" then none else tc t

/-- Model of `int(state[f]) if state[f] else fallback`: a falsy value takes the
hard-coded fallback id; a non-numeric value raises (`Except.error`). -/
def idOrFallback (v : Option String) (fallback : Int) : Except String Int :=
  if strFalsy v then .ok fallback
  else
    match pyInt? (optStrPy v) with
    | some n => .ok n
    | none => .error ("invalid literal for int() with base 10: " ++ optStrPy v)

/-- The success-confirmation message of `_create_booking`. -/
def bookingConfirmationText (s : BookingState) (a : ApiResponse) : String :=
  let c := "✅ **Booking Confirmed!**\n\n"
  let c := c ++ (match a.id with
    | some v => "• Booking ID: " ++ pyValStr v ++ "\n"
    | none => "")
  let c := c ++ (match a.bookingCode with
    | some v => "• Confirmation Code: " ++ pyValStr v ++ "\n"
    | none => "")
  let c := c ++ "• Customer: " ++ optStrPy s.customer_name ++ "\n" ++
    "• Phone: " ++ optStrPy s.customer_mobile ++ "\n"
  let branch_name := displayNameOptsOnly s.branch_id s.branch_options "Unknown branch"
  let c := c ++ "• Branch: " ++ branch_name ++ "\n"
  let service_name := displayNameOptsOnly s.service_id s.service_options "Unknown service"
  let c := c ++ "• Service: " ++ service_name ++ "\n"
  c ++ "• Date: " ++ optStrPy s.booking_date ++ "\n" ++
    "• Time: " ++ optStrPy s.booking_time ++ "\n\n" ++
    "Thank you for booking with EasySalon! We look forward to seeing you."

/-- The `except`-branch of `_create_booking`. -/
def bookingException (s : BookingState) (e : String) : BookingState :=
  let s1 := { s with error_message := some e }
  let s2 := add_message s1 "assistant"
    ("❌ **Booking Error:** I encountered an error while creating your booking.\n\n" ++
     "Error details: " ++ e ++ "\n\nLet me help you try again.")
  { s2 with current_step := "handle_error" }

/-- The explicit-failure branch of `_create_booking`. -/
def bookingFailure (s : BookingState) (resp : Option ApiResponse) : BookingState :=
  let err := match resp with
    | some a => a.message.getD "Unknown error occurred"
    | none => "Failed to connect to booking service"
  let s1 := { s with error_message := some err }
  let s2 := add_message s1 "assistant"
    ("❌ **Booking Failed:** " ++ err ++
     "\n\nLet me help you fix the issue and try again.")
  { s2 with current_step := "handle_error" }

/-- The `booking_request` dict assembly of `_create_booking`:
date/time converted to API format, unset branch/service ids replaced
by the hard-coded fallbacks 8850 / 257170; a non-numeric id raises. -/
def build_booking_request (s : BookingState) (dc tc : String → Option String) :
    Except String BookingRequest :=
  let api_date := convert_to_api_date dc s.booking_date
  let api_time := convert_to_api_time tc s.booking_time
  match idOrFallback s.branch_id 8850 with
  | .error e => .error e
  | .ok bId =>
    match idOrFallback s.service_id 257170 with
    | .error e => .error e
    | .ok svId =>
      .ok { customer_name := s.customer_name
            customer_mobile := s.customer_mobile
            total_customer := s.total_customer
            branch_id := bId
            service_id := svId
            booking_date := api_date
            booking_time := api_time }

/-- Model of `BookingWorkflow._create_booking`.  `dc`/`tc` are the external
date/time converters; `gw` is `Easysalon.book_appointment`, returning
either a raised-exception text or the (possibly `None`) response dict.
Success requires `api_response.get("bookingCode", False) == True`,
i.e. a truthy response whose `bookingCode` Python-equals `True`. -/
def create_booking (s : BookingState) (dc tc : String → Option String)
    (gw : BookingRequest → Except String (Option ApiResponse)) : BookingState :=
  let s0 := { s with current_step := "create_booking" }
  match build_booking_request s0 dc tc with
  | .error e => bookingException s0 e
  | .ok req =>
    match gw req with
    | .error e => bookingException s0 e
    | .ok api_response =>
      match api_response with
      | some a =>
        if (match a.bookingCode with
            | some v => pyEqTrue v
            | none => false) then
          let s1 := add_message s0 "assistant" (bookingConfirmationText s0 a)
          { s1 with is_complete := true }
        else bookingFailure s0 (some a)
      | none => bookingFailure s0 none

/-- Model of `BookingWorkflow._handle_error`.  The source reads
`state.get("error_message", "Unknown error")` and immediately calls
`.lower()` on it; since the state dict always carries the key, a `None`
value reaches `.lower()` and raises `AttributeError` — modelled as
`none`. -/
def handle_error (s : BookingState) : Option BookingState :=
  let s0 := { s with current_step := "handle_error" }
  match s0.error_message with
  | none => none
  | some error_msg =>
    let el := pyLower error_msg
    let s1 :=
      if strContains el "service" then
        let t := add_message s0 "assistant"
          ("It seems there was an issue with the service selection. " ++
           "Let me help you choose an available service.")
        { t with current_step := "query_services" }
      else if strContains el "branch" then
        let t := add_message s0 "assistant"
          ("It seems there was an issue with the branch selection. " ++
           "Let me help you choose an available branch.")
        { t with current_step := "query_branches" }
      else if strContains el "date" || strContains el "time" then
        let t := add_message s0 "assistant"
          ("It seems there was an issue with the booking date or time. " ++
           "Please provide a different date or time for your appointment.")
        let t := { t with booking_date := none, booking_time := none }
        let t := update_missing_fields t
        { t with current_step := "collect_customer_info" }
      else
        let t := add_message s0 "assistant"
          ("Let" ++ apos ++ "s try again with your booking. " ++
           "Please confirm your information again.")
        { t with current_step := "confirm_details" }
    some { s1 with error_message := none }

/-- The digit/ordinal words of the selection-mode guard in
`_route_after_extraction`. -/
def selNumberWords : List String :=
  ["1", "2", "3", "4", "5", "first", "second", "third"]

/-- The control intents that `_route_after_extraction` diverts to
`handle_user_intent`. -/
def controlIntent (intent : String) : Bool :=
  ["edit", "show_summary", "start_over", "confirm", "cancel"].contains intent

/-- The selection-mode guards and explicit branch/service keyword
checks of `_route_after_extraction`, applied to the lower-cased latest
user message; `none` means fall through to the missing-information
precedence. -/
def keywordRoute (s : BookingState) (content : String) : Option String :=
  if !s.service_options.isEmpty && strFalsy s.service_id &&
      selNumberWords.any (fun w => strContains content w) then
    some "query_services"
  else if !s.branch_options.isEmpty && strFalsy s.branch_id &&
      selNumberWords.any (fun w => strContains content w) then
    some "query_branches"
  else if !((!s.branch_options.isEmpty && strFalsy s.branch_id) ||
            (!s.service_options.isEmpty && strFalsy s.service_id)) then
    if strContains content "branch" || strContains content "salon" ||
        strContains content "location" then some "query_branches"
    else if strContains content "service" || strContains content "treatment" then
      some "query_services"
    else none
  else none

/-- Model of `BookingWorkflow._route_after_extraction`. -/
def route_after_extraction (s : BookingState) : String :=
  let latest := latestMessage "user" s.conversation_history
  let intentHit := match latest with
    | some m => controlIntent (detect_user_intent m.content)
    | none => false
  if intentHit then "handle_user_intent"
  else
    let kw : Option String := match latest with
      | none => none
      | some m => keywordRoute s (pyLower m.content)
    match kw with
    | some r => r
    | none =>
      if strFalsy s.branch_id then "query_branches"
      else if strFalsy s.service_id then "query_services"
      else if strFalsy s.customer_name || strFalsy s.customer_mobile then
        "collect_customer_info"
      else "confirm_details"

/-- Model of `BookingWorkflow._check_booking_completeness`: recomputes the
missing fields (mutating the state) and returns the route taken by the
conditional edge out of `confirm_details`. -/
def check_booking_completeness (s : BookingState) : BookingState × String :=
  let s1 := update_missing_fields s
  let route := match latestMessage "user" s1.conversation_history with
    | some m =>
      if strContains (pyLower m.content) "confirm" then
        (if s1.missing_fields == [] then "create_booking" else "end")
      else "end"
    | none => "end"
  (s1, route)

/-- Model of `BookingWorkflow._check_booking_success`: the conditional edge out
of `create_booking`. -/
def check_booking_success (s : BookingState) : String :=
  if s.is_complete then "end" else "handle_error"

/-- The needle `_is_booking_truly_complete` scans for
(chatbot.py:1433).  Its source bytes are `e2 80 9a c3 ba c3 96`, a
double-encoded mojibake of the check mark — the three characters
U+201A, U+00FA, U+00D6 — written here via explicit code points so the
constant stays byte-faithful.  The workflow's confirmation message
(booking_workflow.py:855) starts with the clean check mark U+2705
instead, so this needle never occurs in the messages the workflow
emits. -/
def bookingConfirmedMarker : String :=
  String.mk [Char.ofNat 0x201A, Char.ofNat 0xFA, Char.ofNat 0xD6] ++
    " **Booking Confirmed!**"

/-- Model of `Chatbot._is_booking_truly_complete` (src/chatbot.py): the
workflow result's `is_complete` is the state's own flag, so the check
is a function of the final state.  Because `bookingConfirmedMarker` is
the mojibake needle and the workflow emits the clean check mark, the
message-scan branch can never fire on workflow-produced histories;
completion is effectively detected by the
`current_step == "create_booking" and is_complete` branch. -/
def is_booking_truly_complete (st : BookingState) : Bool :=
  if !st.is_complete then false
  else if st.conversation_history.any
      (fun m => m.role == "assistant" && strContains m.content bookingConfirmedMarker)
  then true
  else st.current_step == "create_booking" && st.is_complete

/-- The registry action of `Chatbot.handle_question` after a booking
turn: the session entry is deleted exactly when
`_is_booking_truly_complete` holds, otherwise the updated state is
kept. -/
def sessionAfterTurn (st : BookingState) : Option BookingState :=
  if is_booking_truly_complete st then none else some st

/-- Modelled from the spec (§4.3 step 6): the fixed routing precedence
`no branchId → QueryBranches; else no serviceId → QueryServices; else
missing name/phone → CollectCustomerInfo; else → ConfirmDetails`,
stated for comparison with `route_after_extraction`. -/
def specPrecedenceRoute (s : BookingState) : String :=
  if strFalsy s.branch_id then "query_branches"
  else if strFalsy s.service_id then "query_services"
  else if strFalsy s.customer_name || strFalsy s.customer_mobile then
    "collect_customer_info"
  else "confirm_details"

/- Concrete fixtures used by witnesses and counterexamples. -/

/-- A session with all six required fields filled whose latest user
message is a confirmation. -/
def sessionFull : BookingState :=
  { initialize_booking_state (some "s1") with
      customer_mobile := some "5551234"
      customer_name := some "Jane"
      branch_id := some "8850"
      service_id := some "257170"
      booking_date := some "tomorrow"
      booking_time := some "2pm"
      conversation_history := [⟨"user", "confirm"⟩] }

/-- The state entering `create_booking` on the happy path: the output
of the `confirm_details` node after the completeness check. -/
def afterConfirmState : BookingState :=
  (check_booking_completeness (confirm_details sessionFull)).1

/-- The two-option catalog of the spec's SelectionMatcher example. -/
def demoOptions : List SelOption := [⟨1, "Downtown"⟩, ⟨2, "Uptown"⟩]

/-- A stand-in for the external `dateparser` date pipeline. -/
def dcDemo : String → Option String := fun _ => some "2026-10-13"

/-- A stand-in for the external `dateparser` time pipeline. -/
def tcDemo : String → Option String := fun _ => some "14:00"

/-- A gateway returning a genuine confirmation: string `bookingCode`,
numeric booking id — the shape `Easysalon.book_appointment` yields on
success. -/
def gwStringCode : BookingRequest → Except String (Option ApiResponse) :=
  fun _ => .ok (some ⟨some (.vInt 42), some (.vStr "BK123"), none⟩)

/-- A gateway returning an explicit failure whose message mentions the
date. -/
def gwFailDate : BookingRequest → Except String (Option ApiResponse) :=
  fun _ => .ok (some ⟨none, none, some "invalid date"⟩)

/-- A gateway whose `bookingCode` is the Python boolean `True` — the
only shape the success check accepts. -/
def gwBoolCode : BookingRequest → Except String (Option ApiResponse) :=
  fun _ => .ok (some ⟨some (.vInt 42), some (.vBool true), none⟩)

/-- The C6 counterexample state: branch and service already selected,
customer name still missing, latest user message mentioning the word
`branch` without any control intent. -/
def routeCexState : BookingState :=
  { initialize_booking_state (some "s2") with
      branch_id := some "8850"
      service_id := some "257170"
      customer_mobile := some "5551234"
      conversation_history := [⟨"user", "i like this branch"⟩] }

/-- A filled session whose latest user message is `edit branch`. -/
def sessionEditBranch : BookingState :=
  { sessionFull with
      branch_options := demoOptions
      conversation_history :=
        sessionFull.conversation_history ++ [⟨"user", "edit branch"⟩] }

/-- The result of `create_booking` when the gateway reports a failure
mentioning the date. -/
def failedBookingState : BookingState :=
  create_booking afterConfirmState dcDemo tcDemo gwFailDate

/-- A session state that has provided plain information (no control
intent, no branch/service keywords) and still misses the branch. -/
def plainInfoState : BookingState :=
  { initialize_booking_state (some "s3") with
      customer_mobile := some "5551234"
      conversation_history := [⟨"user", "my name is jane"⟩] }

/- General lemmas about the embedding. -/

theorem create_booking_keeps_complete (s : BookingState)
    (dc tc : String → Option String)
    (gw : BookingRequest → Except String (Option ApiResponse))
    (h : s.is_complete = true) :
    (create_booking s dc tc gw).is_complete = true := by
  unfold create_booking
  dsimp only
  split
  · exact h
  · split
    · exact h
    · split
      · split
        · rfl
        · exact h
      · exact h

theorem check_booking_success_end (r : BookingState)
    (h : r.is_complete = true) : check_booking_success r = "end" := by
  simp [check_booking_success, h]

theorem truly_complete_of_success (r : BookingState)
    (h1 : r.is_complete = true) (h2 : r.current_step = "create_booking") :
    is_booking_truly_complete r = true := by
  unfold is_booking_truly_complete
  cases hany : r.conversation_history.any (fun m =>
      m.role == "assistant" && strContains m.content bookingConfirmedMarker) with
  | false => simp [h1, h2, hany]
  | true => simp [h1, hany]

theorem check_completeness_route_missing (s : BookingState)
    (h : (check_booking_completeness s).2 = "create_booking") :
    get_missing_fields s = [] := by
  have h2 : (match latestMessage "user" (update_missing_fields s).conversation_history with
    | some m =>
      if strContains (pyLower m.content) "confirm" then
        (if (update_missing_fields s).missing_fields == [] then "create_booking"
         else "end")
      else "end"
    | none => "end") = "create_booking" := h
  split at h2
  · split at h2
    · split at h2
      · next hmf => exact eq_of_beq hmf
      · exact absurd h2 (by decide)
    · exact absurd h2 (by decide)
  · exact absurd h2 (by decide)

/- Claim theorems. -/

/-- C5: for every state (hence after any sequence of field-clearing
edits), the recomputed `missing_fields` is exactly the list of the six
required fields whose value is falsy — no stale entries, no
omissions. -/
theorem c5_missing_fields_exact (s : BookingState) :
    (update_missing_fields s).missing_fields
        = requiredFields.filter (fun f => strFalsy (getField s f)) ∧
    ∀ f, f ∈ (update_missing_fields s).missing_fields ↔
        (f ∈ requiredFields ∧ strFalsy (getField s f) = true) := by
  refine ⟨rfl, fun f => ?_⟩
  simp [update_missing_fields, get_missing_fields, List.mem_filter]

/-- Witness for C5 at the freshly initialized state: `branch_id` is
reported missing, `total_customer` is not a tracked field. -/
theorem c5_witness :
    "branch_id" ∈ (update_missing_fields (initialize_booking_state none)).missing_fields ∧
    "total_customer" ∉ (update_missing_fields (initialize_booking_state none)).missing_fields := by
  constructor
  · exact ((c5_missing_fields_exact (initialize_booking_state none)).2 "branch_id").mpr
      (by decide)
  · intro hmem
    have hx := ((c5_missing_fields_exact (initialize_booking_state none)).2
      "total_customer").mp hmem
    exact absurd hx.1 (by decide)

/-- C1 counterexample: the fully-filled session at `confirm_details`,
with no booking-gateway call ever made, already has
`is_complete = true` — the claim demands `false` there. -/
theorem c1_counterexample :
    (confirm_details sessionFull).current_step = "confirm_details" ∧
    (confirm_details sessionFull).missing_fields = [] ∧
    (confirm_details sessionFull).is_complete = true := by
  exact ⟨rfl, by decide, by decide⟩

/-- C1 (amended): the workflow flag `is_complete` merely records that
no field is missing; the gateway-confirmation gate is the chatbot's
`_is_booking_truly_complete`, which is false at a `confirm_details`
state whose history has no message containing the (mojibake) marker
needle — in particular at every workflow-produced history, since the
workflow never emits that needle — so the session is kept; it is true
after `_create_booking` returns with an accepted gateway response
(via the step-and-flag branch), whereupon the session is removed. -/
theorem c1_true_completion :
    (∀ s : BookingState, s.current_step = "confirm_details" →
      (s.conversation_history.any (fun m =>
        m.role == "assistant" && strContains m.content bookingConfirmedMarker)) = false →
      is_booking_truly_complete s = false ∧ sessionAfterTurn s = some s) ∧
    (∀ (s : BookingState) (dc tc : String → Option String)
        (resp : ApiResponse) (req : BookingRequest),
      build_booking_request s dc tc = .ok req →
      (match resp.bookingCode with
        | some v => pyEqTrue v
        | none => false) = true →
      is_booking_truly_complete
          (create_booking s dc tc (fun _ => .ok (some resp))) = true ∧
      sessionAfterTurn
          (create_booking s dc tc (fun _ => .ok (some resp))) = none) := by
  constructor
  · intro s hstep hmsg
    have hfalse : is_booking_truly_complete s = false := by
      unfold is_booking_truly_complete
      cases hic : s.is_complete with
      | false => simp
      | true => simp [hmsg, hstep]
    exact ⟨hfalse, by simp [sessionAfterTurn, hfalse]⟩
  · intro s dc tc resp req hreq hcode
    have hbuild : build_booking_request
        { s with current_step := "create_booking" } dc tc = .ok req := hreq
    have hfields : (create_booking s dc tc (fun _ => .ok (some resp))).is_complete = true ∧
        (create_booking s dc tc (fun _ => .ok (some resp))).current_step
          = "create_booking" := by
      unfold create_booking
      dsimp only
      rw [hbuild]
      simp [hcode, add_message]
    have htrue := truly_complete_of_success _ hfields.1 hfields.2
    exact ⟨htrue, by simp [sessionAfterTurn, htrue]⟩

set_option maxRecDepth 8000 in
/-- Witness for C1: the amended statement applied to the concrete
pre-gateway state and to a concrete accepted gateway response. -/
theorem c1_witness :
    (is_booking_truly_complete (confirm_details sessionFull) = false ∧
     sessionAfterTurn (confirm_details sessionFull) = some (confirm_details sessionFull)) ∧
    (is_booking_truly_complete
        (create_booking afterConfirmState dcDemo tcDemo
          (fun _ => .ok (some ⟨some (.vInt 42), some (.vBool true), none⟩))) = true ∧
     sessionAfterTurn
        (create_booking afterConfirmState dcDemo tcDemo
          (fun _ => .ok (some ⟨some (.vInt 42), some (.vBool true), none⟩))) = none) := by
  constructor
  · exact c1_true_completion.1 (confirm_details sessionFull) rfl (by decide)
  · exact c1_true_completion.2 afterConfirmState dcDemo tcDemo
      ⟨some (.vInt 42), some (.vBool true), none⟩
      { customer_name := some "Jane"
        customer_mobile := some "5551234"
        total_customer := some 1
        branch_id := 8850
        service_id := 257170
        booking_date := some "2026-10-13"
        booking_time := some "14:00" }
      (by rfl) (by decide)

set_option maxRecDepth 8000 in
/-- C2 (code bug): the payload substitutes the fallback ids 8850 /
257170 for unset branch/service, but the success test
`api_response.get("bookingCode", False) == True` rejects a genuine
confirmation whose `bookingCode` is the string `"BK123"`: the handler
takes the failure branch (stores `error_message`, appends the failure
message, moves to `handle_error`); only the literal boolean `True`
is accepted. -/
theorem c2_success_check_bug :
    (build_booking_request
        { sessionFull with branch_id := none, service_id := none } dcDemo tcDemo).map
        (fun r => (r.branch_id, r.service_id)) = .ok (8850, 257170) ∧
    (create_booking afterConfirmState dcDemo tcDemo gwStringCode).current_step
        = "handle_error" ∧
    (create_booking afterConfirmState dcDemo tcDemo gwStringCode).error_message
        = some "Unknown error occurred" ∧
    latestMessage "assistant"
        (create_booking afterConfirmState dcDemo tcDemo gwStringCode).conversation_history
      = some ⟨"assistant", "❌ **Booking Failed:** Unknown error occurred" ++
          "\n\nLet me help you fix the issue and try again."⟩ ∧
    (create_booking afterConfirmState dcDemo tcDemo gwBoolCode).is_complete = true ∧
    (create_booking afterConfirmState dcDemo tcDemo gwBoolCode).current_step
        = "create_booking" := by
  refine ⟨by rfl, by rfl, by rfl, by decide, by rfl, by rfl⟩

set_option maxRecDepth 8000 in
/-- C4 (code bug): after a gateway failure mentioning the date, the
state carries `error_message = "invalid date"` and
`current_step = "handle_error"`, but `is_complete` is still true (set
by the completeness gate), so `_check_booking_success` routes to
`end`: the `handle_error` node never runs, the date/time fields stay
set and the error message is never cleared.  The last conjunct shows
what `_handle_error` would do if it were reached — exactly the clearing
and re-routing the claim describes. -/
theorem c4_dead_error_edge :
    failedBookingState.error_message = some "invalid date" ∧
    failedBookingState.current_step = "handle_error" ∧
    failedBookingState.is_complete = true ∧
    check_booking_success failedBookingState = "end" ∧
    failedBookingState.booking_date = some "tomorrow" ∧
    failedBookingState.booking_time = some "2pm" ∧
    (handle_error failedBookingState).map (fun t =>
        (t.booking_date, t.booking_time, t.current_step, t.error_message,
         t.is_complete))
      = some (none, none, "collect_customer_info", none, false) := by
  refine ⟨by rfl, by rfl, by rfl, by rfl, by rfl, by rfl, by rfl⟩

set_option maxRecDepth 8000 in
/-- C6 counterexample: with branch and service both set and the
customer name missing, the plain-information message
`i like this branch` (intent `provide_info`) is routed to
`query_branches` by the keyword scan, not to `collect_customer_info`
as the claimed fixed precedence requires. -/
theorem c6_counterexample :
    detect_user_intent "i like this branch" = "provide_info" ∧
    strFalsy routeCexState.branch_id = false ∧
    strFalsy routeCexState.service_id = false ∧
    routeCexState.customer_name = none ∧
    route_after_extraction routeCexState = "query_branches" ∧
    route_after_extraction routeCexState ≠ "collect_customer_info" := by
  refine ⟨by rfl, by rfl, by rfl, by rfl, by rfl, by decide⟩

/-- C6 (amended): the fixed precedence (no branch → QueryBranches;
else no service → QueryServices; else missing name/phone →
CollectCustomerInfo; else ConfirmDetails) is the final fallback of
`_route_after_extraction`: it governs exactly the turns where the
latest user message (if any) triggers neither a control intent, nor a
selection-mode guard, nor an explicit branch/service keyword
request. -/
theorem c6_amended_route_precedence (s : BookingState)
    (h : match latestMessage "user" s.conversation_history with
      | some m => controlIntent (detect_user_intent m.content) = false ∧
          keywordRoute s (pyLower m.content) = none
      | none => True) :
    route_after_extraction s = specPrecedenceRoute s := by
  unfold route_after_extraction specPrecedenceRoute
  cases hm : latestMessage "user" s.conversation_history with
  | none => simp [hm]
  | some m =>
    rw [hm] at h
    simp [hm, h.1, h.2]

/-- Witness for C6: the amended routing applied to a plain
informational message with no keyword overrides. -/
theorem c6_witness :
    route_after_extraction plainInfoState = specPrecedenceRoute plainInfoState := by
  exact c6_amended_route_precedence plainInfoState ⟨by decide, by decide⟩

/-- C3: the conditional edge out of `confirm_details` routes to
`create_booking` (the only path to the gateway call) exactly when no
required field is missing and the latest user message contains the
confirmation trigger `confirm`; in every other case the turn ends. -/
theorem c3_confirm_gates_gateway (s : BookingState) :
    ((check_booking_completeness s).2 = "create_booking" ↔
      (get_missing_fields s = [] ∧
       ∃ m, latestMessage "user" s.conversation_history = some m ∧
         strContains (pyLower m.content) "confirm" = true)) ∧
    ((check_booking_completeness s).2 = "create_booking" ∨
     (check_booking_completeness s).2 = "end") := by
  have hpair : (check_booking_completeness s).2 =
      (match latestMessage "user" s.conversation_history with
        | some m =>
          if strContains (pyLower m.content) "confirm" then
            (if get_missing_fields s == ([] : List String) then "create_booking"
             else "end")
          else "end"
        | none => "end") := rfl
  cases hm : latestMessage "user" s.conversation_history with
  | none =>
    have hr2 : (check_booking_completeness s).2 = "end" := by rw [hpair, hm]
    rw [hr2]
    refine ⟨⟨fun hr => absurd hr (by decide), ?_⟩, Or.inr rfl⟩
    rintro ⟨-, mm, hmm, -⟩
    exact Option.noConfusion hmm
  | some m =>
    have hr2 : (check_booking_completeness s).2 =
        (if strContains (pyLower m.content) "confirm" then
          (if get_missing_fields s == ([] : List String) then "create_booking"
           else "end")
         else "end") := by rw [hpair, hm]
    rw [hr2]
    by_cases hc : strContains (pyLower m.content) "confirm" = true
    · by_cases hmf : get_missing_fields s = []
      · simp [hc, hmf, hm]
      · simp [hc, hmf, hm]
    · simp only [Bool.not_eq_true] at hc
      simp [hc, hm]

/-- Witness for C3: the filled session whose latest message is
`confirm` routes to `create_booking`. -/
theorem c3_witness :
    (check_booking_completeness sessionFull).2 = "create_booking" := by
  exact (c3_confirm_gates_gateway sessionFull).1.mpr
    ⟨by decide, ⟨"user", "confirm"⟩, by decide, by decide⟩

/-- C10: whenever the completeness gate routes into `create_booking`,
the state it hands over already has `is_complete = true`, and since
`_create_booking` never resets the flag on failure, the success router
returns `end` for every gateway outcome — the `handle_error` edge out
of `create_booking` is dead. -/
theorem c10_complete_before_gateway (s : BookingState)
    (dc tc : String → Option String)
    (gw : BookingRequest → Except String (Option ApiResponse))
    (h : (check_booking_completeness s).2 = "create_booking") :
    (check_booking_completeness s).1.is_complete = true ∧
    check_booking_success
      (create_booking (check_booking_completeness s).1 dc tc gw) = "end" ∧
    check_booking_success
      (create_booking (check_booking_completeness s).1 dc tc gw) ≠ "handle_error" := by
  have hmf : get_missing_fields s = [] := check_completeness_route_missing s h
  have hic : (check_booking_completeness s).1.is_complete = true := by
    show (update_missing_fields s).is_complete = true
    simp [update_missing_fields, hmf]
  have hend : check_booking_success
      (create_booking (check_booking_completeness s).1 dc tc gw) = "end" :=
    check_booking_success_end _ (create_booking_keeps_complete _ dc tc gw hic)
  exact ⟨hic, hend, by rw [hend]; decide⟩

set_option maxRecDepth 8000 in
/-- Witness for C10 at the concrete happy-path state, with a gateway
that fails: the router still returns `end`. -/
theorem c10_witness :
    (check_booking_completeness (confirm_details sessionFull)).1.is_complete = true ∧
    check_booking_success
      (create_booking (check_booking_completeness (confirm_details sessionFull)).1
        dcDemo tcDemo gwFailDate) = "end" := by
  have hx := c10_complete_before_gateway (confirm_details sessionFull)
    dcDemo tcDemo gwFailDate (by decide)
  exact ⟨hx.1, hx.2.1⟩

/-- C7: the intent classifier is total (always one of the six
intents), Edit keywords pre-empt everything else, and the spec's four
examples classify as required — in particular a sentence merely
containing `book` falls through to `provide_info`. -/
theorem c7_intent_classifier :
    detect_user_intent "I want to book a haircut" = "provide_info" ∧
    detect_user_intent "confirm" = "confirm" ∧
    detect_user_intent "edit phone" = "edit" ∧
    detect_user_intent "show me the summary" = "show_summary" ∧
    (∀ m, (["edit", "change", "modify", "update"].any
        (fun w => strContains (pyTrim (pyLower m)) w)) = true →
      detect_user_intent m = "edit") ∧
    (∀ m, detect_user_intent m ∈
      ["edit", "show_summary", "start_over", "confirm", "cancel", "provide_info"]) := by
  refine ⟨by decide, by decide, by decide, by decide, fun m h => ?_, fun m => ?_⟩
  · unfold detect_user_intent
    simp [h]
  · unfold detect_user_intent
    dsimp only
    split_ifs <;> simp

/-- Witness for C7: the Edit-priority conjunct applied to a message
that also contains Cancel and date keywords. -/
theorem c7_witness :
    detect_user_intent "please change the time" = "edit" := by
  exact c7_intent_classifier.2.2.2.2.1 "please change the time" (by decide)

theorem selectByOrdinal_mem (msg : String) (l : List SelOption) :
    ∀ (i : Nat) (r : SelOption), selectByOrdinal msg i l = some r → r ∈ l := by
  induction l with
  | nil => intro i r h; exact absurd h (by simp [selectByOrdinal])
  | cons o rest ih =>
    intro i r h
    unfold selectByOrdinal at h
    split at h
    · obtain rfl := Option.some.inj h
      exact List.mem_cons_self _ _
    · split at h
      · obtain rfl := Option.some.inj h
        exact List.mem_cons_self _ _
      · exact List.mem_cons_of_mem _ (ih _ _ h)

/-- C8: the selection matcher resolves the spec's three examples
(bare ordinal `2` → Uptown, name mention → Downtown, out-of-range `3`
→ None), and every successful match returns one of the given
options. -/
theorem c8_selection_matcher :
    parse_selection "2" demoOptions = some ⟨2, "Uptown"⟩ ∧
    parse_selection ("I" ++ apos ++ "ll take the Downtown one") demoOptions
        = some ⟨1, "Downtown"⟩ ∧
    parse_selection "3" demoOptions = none ∧
    (∀ (msg : String) (options : List SelOption) (r : SelOption),
      parse_selection msg options = some r → r ∈ options) := by
  refine ⟨by decide, by decide, by decide, fun msg options r h => ?_⟩
  unfold parse_selection at h
  dsimp only at h
  split at h
  · next o heq =>
    obtain rfl := Option.some.inj h
    exact List.take_subset 5 options (selectByOrdinal_mem _ _ _ _ heq)
  · exact List.mem_of_find?_eq_some h

/-- Witness for C8: the membership conjunct applied to the resolved
`option 2` selection. -/
theorem c8_witness : (⟨2, "Uptown"⟩ : SelOption) ∈ demoOptions := by
  exact c8_selection_matcher.2.2.2 "option 2" demoOptions ⟨2, "Uptown"⟩ (by decide)

/-- C9: handling `edit branch` clears exactly `branch_id` and its
paired `branch_options` cache, moves to `query_branches`, and
recomputes `missing_fields` to include the branch again, while every
other booking field is left unchanged. -/
theorem c9_edit_branch_frame (s : BookingState)
    (h : latestMessage "user" s.conversation_history
      = some ⟨"user", "edit branch"⟩) :
    (handle_edit s).branch_id = none ∧
    (handle_edit s).branch_options = [] ∧
    (handle_edit s).current_step = "query_branches" ∧
    "branch_id" ∈ (handle_edit s).missing_fields ∧
    (handle_edit s).service_id = s.service_id ∧
    (handle_edit s).service_options = s.service_options ∧
    (handle_edit s).booking_date = s.booking_date ∧
    (handle_edit s).booking_time = s.booking_time ∧
    (handle_edit s).customer_name = s.customer_name ∧
    (handle_edit s).customer_mobile = s.customer_mobile ∧
    (handle_edit s).total_customer = s.total_customer ∧
    (handle_edit s).error_message = s.error_message := by
  have hres : handle_edit s =
      update_missing_fields (add_message
        { { s with current_step := "handle_edit" } with
            branch_id := none, branch_options := [],
            current_step := "query_branches" } "assistant"
        ("I" ++ apos ++ "ll help you update your " ++
          pyTitle (underscoreToSpace "branch_id") ++ ".")) := by
    unfold handle_edit
    dsimp only
    rw [h]
    rfl
  rw [hres]
  refine ⟨rfl, rfl, rfl, ?_, rfl, rfl, rfl, rfl, rfl, rfl, rfl, rfl⟩
  refine List.mem_filter.mpr ⟨by decide, ?_⟩
  rfl

/-- Witness for C9: the edit-branch frame property at the concrete
filled session. -/
theorem c9_witness :
    (handle_edit sessionEditBranch).branch_id = none ∧
    (handle_edit sessionEditBranch).branch_options = [] ∧
    (handle_edit sessionEditBranch).current_step = "query_branches" ∧
    (handle_edit sessionEditBranch).service_id = sessionEditBranch.service_id := by
  have hx := c9_edit_branch_frame sessionEditBranch (by decide)
  exact ⟨hx.1, hx.2.1, hx.2.2.1, hx.2.2.2.2.1⟩

end EasySalon
